import Mathlib

/-!
Verification of the secure-channel crypto core of the GlobalPlatform library
(`src/globalplatform/src/crypto.c`).  Bytes are modelled as `List Nat` with
values below 256; C buffers become lists, `memcpy` into a buffer becomes the
`splice` operation below, and machine-byte arithmetic is made explicit with
`% 256`.  The DES block cipher (consumed by the source through OpenSSL's
`EVP_des_ecb`/`EVP_des_ede_cbc`/... which are outside this repository) is
implemented concretely per FIPS 46-3 so that MAC values are computable.
AES-128-CMAC (OpenSSL `CMAC_*`, also outside the repository) is kept as an
explicit function parameter `aesCmac`: no statement here depends on its values,
only on the bytes the source feeds it.
-/

namespace GPCrypto

/-- An 8-byte buffer of zeros; the process-wide `icv` constant of the source. -/
def icv : List Nat := List.replicate 8 0

/-- The process-wide `padding` constant of the source: `0x80` followed by seven
`0x00` bytes. -/
def opgpPadding : List Nat := [0x80, 0, 0, 0, 0, 0, 0, 0]

/-- Write `src` into the buffer `dst` starting at byte offset `pos`, extending
the buffer if the write runs past its end: the `memcpy`-into-a-buffer of the C
source, on the meaningful prefix of the buffer. -/
def splice (dst : List Nat) (pos : Nat) (src : List Nat) : List Nat :=
  dst.take pos ++ src ++ dst.drop (pos + src.length)

/-- Bytewise XOR of two equal-length byte strings. -/
def xorBytes (a b : List Nat) : List Nat :=
  List.zipWith (fun x y => x ^^^ y) a b

/-- Big-endian byte string to natural number (DES numbers bits from the most
significant end). -/
def bytesToNat (bs : List Nat) : Nat :=
  bs.foldl (fun acc b => acc * 256 + b % 256) 0

/-- A 64-bit word back to its 8 big-endian bytes. -/
def natToBytes8 (x : Nat) : List Nat :=
  (List.range 8).map (fun i => (x >>> (8 * (7 - i))) &&& 255)

/-- Split a byte string into 8-byte blocks, structurally recursive on a fuel
argument so that evaluation reduces in the kernel; the fuel is always at least
the list length at every call. -/
def toBlocksF : Nat → List Nat → List (List Nat)
  | _, [] => []
  | 0, _ :: _ => []
  | f + 1, a :: t => (a :: t).take 8 :: toBlocksF f ((a :: t).drop 8)

/-- Split a byte string into 8-byte blocks (the callers below always pass a
multiple of 8 bytes). -/
def toBlocks (l : List Nat) : List (List Nat) := toBlocksF l.length l

/-! ### DES, per FIPS 46-3

Modelled from the spec: the source's DES/3DES block operations come from
OpenSSL (`EVP_des_ecb`, `EVP_des_ede`, `EVP_des_cbc`, `EVP_des_ede_cbc`),
which is not part of this repository; the spec names them as the block-cipher
primitives (§4.1).  They are implemented here bit-exactly per FIPS 46-3. -/

/-- Initial permutation table IP of FIPS 46-3. -/
def desIP : List Nat :=
  [58, 50, 42, 34, 26, 18, 10, 2,
   60, 52, 44, 36, 28, 20, 12, 4,
   62, 54, 46, 38, 30, 22, 14, 6,
   64, 56, 48, 40, 32, 24, 16, 8,
   57, 49, 41, 33, 25, 17, 9, 1,
   59, 51, 43, 35, 27, 19, 11, 3,
   61, 53, 45, 37, 29, 21, 13, 5,
   63, 55, 47, 39, 31, 23, 15, 7]

/-- Final permutation table (the inverse of IP). -/
def desFP : List Nat :=
  [40, 8, 48, 16, 56, 24, 64, 32,
   39, 7, 47, 15, 55, 23, 63, 31,
   38, 6, 46, 14, 54, 22, 62, 30,
   37, 5, 45, 13, 53, 21, 61, 29,
   36, 4, 44, 12, 52, 20, 60, 28,
   35, 3, 43, 11, 51, 19, 59, 27,
   34, 2, 42, 10, 50, 18, 58, 26,
   33, 1, 41, 9, 49, 17, 57, 25]

/-- Expansion table E of FIPS 46-3. -/
def desE : List Nat :=
  [32, 1, 2, 3, 4, 5,
   4, 5, 6, 7, 8, 9,
   8, 9, 10, 11, 12, 13,
   12, 13, 14, 15, 16, 17,
   16, 17, 18, 19, 20, 21,
   20, 21, 22, 23, 24, 25,
   24, 25, 26, 27, 28, 29,
   28, 29, 30, 31, 32, 1]

/-- Permutation table P of FIPS 46-3. -/
def desP : List Nat :=
  [16, 7, 20, 21,
   29, 12, 28, 17,
   1, 15, 23, 26,
   5, 18, 31, 10,
   2, 8, 24, 14,
   32, 27, 3, 9,
   19, 13, 30, 6,
   22, 11, 4, 25]

/-- Permuted-choice table PC-1 of FIPS 46-3. -/
def desPC1 : List Nat :=
  [57, 49, 41, 33, 25, 17, 9,
   1, 58, 50, 42, 34, 26, 18,
   10, 2, 59, 51, 43, 35, 27,
   19, 11, 3, 60, 52, 44, 36,
   63, 55, 47, 39, 31, 23, 15,
   7, 62, 54, 46, 38, 30, 22,
   14, 6, 61, 53, 45, 37, 29,
   21, 13, 5, 28, 20, 12, 4]

/-- Permuted-choice table PC-2 of FIPS 46-3. -/
def desPC2 : List Nat :=
  [14, 17, 11, 24, 1, 5,
   3, 28, 15, 6, 21, 10,
   23, 19, 12, 4, 26, 8,
   16, 7, 27, 20, 13, 2,
   41, 52, 31, 37, 47, 55,
   30, 40, 51, 45, 33, 48,
   44, 49, 39, 56, 34, 53,
   46, 42, 50, 36, 29, 32]

/-- The eight DES selection functions S1..S8, each as its 64 entries in
row-major order. -/
def desSboxes : List (List Nat) :=
  [[14, 4, 13, 1, 2, 15, 11, 8, 3, 10, 6, 12, 5, 9, 0, 7,
    0, 15, 7, 4, 14, 2, 13, 1, 10, 6, 12, 11, 9, 5, 3, 8,
    4, 1, 14, 8, 13, 6, 2, 11, 15, 12, 9, 7, 3, 10, 5, 0,
    15, 12, 8, 2, 4, 9, 1, 7, 5, 11, 3, 14, 10, 0, 6, 13],
   [15, 1, 8, 14, 6, 11, 3, 4, 9, 7, 2, 13, 12, 0, 5, 10,
    3, 13, 4, 7, 15, 2, 8, 14, 12, 0, 1, 10, 6, 9, 11, 5,
    0, 14, 7, 11, 10, 4, 13, 1, 5, 8, 12, 6, 9, 3, 2, 15,
    13, 8, 10, 1, 3, 15, 4, 2, 11, 6, 7, 12, 0, 5, 14, 9],
   [10, 0, 9, 14, 6, 3, 15, 5, 1, 13, 12, 7, 11, 4, 2, 8,
    13, 7, 0, 9, 3, 4, 6, 10, 2, 8, 5, 14, 12, 11, 15, 1,
    13, 6, 4, 9, 8, 15, 3, 0, 11, 1, 2, 12, 5, 10, 14, 7,
    1, 10, 13, 0, 6, 9, 8, 7, 4, 15, 14, 3, 11, 5, 2, 12],
   [7, 13, 14, 3, 0, 6, 9, 10, 1, 2, 8, 5, 11, 12, 4, 15,
    13, 8, 11, 5, 6, 15, 0, 3, 4, 7, 2, 12, 1, 10, 14, 9,
    10, 6, 9, 0, 12, 11, 7, 13, 15, 1, 3, 14, 5, 2, 8, 4,
    3, 15, 0, 6, 10, 1, 13, 8, 9, 4, 5, 11, 12, 7, 2, 14],
   [2, 12, 4, 1, 7, 10, 11, 6, 8, 5, 3, 15, 13, 0, 14, 9,
    14, 11, 2, 12, 4, 7, 13, 1, 5, 0, 15, 10, 3, 9, 8, 6,
    4, 2, 1, 11, 10, 13, 7, 8, 15, 9, 12, 5, 6, 3, 0, 14,
    11, 8, 12, 7, 1, 14, 2, 13, 6, 15, 0, 9, 10, 4, 5, 3],
   [12, 1, 10, 15, 9, 2, 6, 8, 0, 13, 3, 4, 14, 7, 5, 11,
    10, 15, 4, 2, 7, 12, 9, 5, 6, 1, 13, 14, 0, 11, 3, 8,
    9, 14, 15, 5, 2, 8, 12, 3, 7, 0, 4, 10, 1, 13, 11, 6,
    4, 3, 2, 12, 9, 5, 15, 10, 11, 14, 1, 7, 6, 0, 8, 13],
   [4, 11, 2, 14, 15, 0, 8, 13, 3, 12, 9, 7, 5, 10, 6, 1,
    13, 0, 11, 7, 4, 9, 1, 10, 14, 3, 5, 12, 2, 15, 8, 6,
    1, 4, 11, 13, 12, 3, 7, 14, 10, 15, 6, 8, 0, 5, 9, 2,
    6, 11, 13, 8, 1, 4, 10, 7, 9, 5, 0, 15, 14, 2, 3, 12],
   [13, 2, 8, 4, 6, 15, 11, 1, 10, 9, 3, 14, 5, 0, 12, 7,
    1, 15, 13, 8, 10, 3, 7, 4, 12, 5, 6, 11, 0, 14, 9, 2,
    7, 11, 4, 1, 9, 12, 14, 2, 0, 6, 10, 13, 15, 3, 5, 8,
    2, 1, 14, 7, 4, 10, 8, 13, 15, 12, 9, 0, 3, 5, 6, 11]]

/-- Left-rotation schedule for the key halves, rounds 1..16. -/
def desRotations : List Nat := [1, 1, 2, 2, 2, 2, 2, 2, 1, 2, 2, 2, 2, 2, 2, 1]

/-- Apply a FIPS-46-3 bit-selection table to a `w`-bit word: table entries are
1-based bit positions counted from the most significant bit. -/
def desPermute (w : Nat) (tbl : List Nat) (x : Nat) : Nat :=
  tbl.foldl (fun acc p => 2 * acc + ((x >>> (w - p)) &&& 1)) 0

/-- Rotate a 28-bit key half left by `n`. -/
def rotl28 (x n : Nat) : Nat :=
  ((x <<< n) ||| (x >>> (28 - n))) &&& 0xFFFFFFF

/-- The sixteen 48-bit round subkeys of a 64-bit DES key. -/
def desSubkeys (key : Nat) : List Nat :=
  let cd0 := desPermute 64 desPC1 key
  let st := desRotations.foldl
    (fun (st : Nat × Nat × List Nat) n =>
      let c := rotl28 st.1 n
      let d := rotl28 st.2.1 n
      (c, d, st.2.2 ++ [desPermute 56 desPC2 ((c <<< 28) ||| d)]))
    (cd0 >>> 28, cd0 &&& 0xFFFFFFF, [])
  st.2.2

/-- The S-box layer: 48 bits in, 32 bits out. -/
def desSboxLookup (x : Nat) : Nat :=
  (List.range 8).foldl
    (fun acc i =>
      let six := (x >>> (42 - 6 * i)) &&& 63
      let row := ((six >>> 4) &&& 2) ||| (six &&& 1)
      let col := (six >>> 1) &&& 15
      (acc <<< 4) ||| ((desSboxes.getD i []).getD (row * 16 + col) 0))
    0

/-- The DES cipher function f(R, K). -/
def desFeistel (r k : Nat) : Nat :=
  desPermute 32 desP (desSboxLookup ((desPermute 32 desE r) ^^^ k))

/-- Run the 16 Feistel rounds with the given subkey sequence over one 64-bit
block (encryption uses the subkeys in order, decryption reversed). -/
def desProcess (ks : List Nat) (block : Nat) : Nat :=
  let ip := desPermute 64 desIP block
  let lr := ks.foldl (fun (lr : Nat × Nat) k => (lr.2, lr.1 ^^^ desFeistel lr.2 k))
    (ip >>> 32, ip &&& 0xFFFFFFFF)
  desPermute 64 desFP ((lr.2 <<< 32) ||| lr.1)

/-- Single-DES encryption of one 8-byte block under an 8-byte key. -/
def desEncrypt (key block : List Nat) : List Nat :=
  natToBytes8 (desProcess (desSubkeys (bytesToNat key)) (bytesToNat block))

/-- Single-DES decryption of one 8-byte block under an 8-byte key. -/
def desDecrypt (key block : List Nat) : List Nat :=
  natToBytes8 (desProcess (desSubkeys (bytesToNat key)).reverse (bytesToNat block))

/-- Two-key triple-DES (EDE) encryption of one 8-byte block under a 16-byte
key, as OpenSSL's `des_ede` family computes it. -/
def tdesEncrypt (key block : List Nat) : List Nat :=
  desEncrypt (key.take 8) (desDecrypt ((key.drop 8).take 8) (desEncrypt (key.take 8) block))

/-- CBC encryption over a list of 8-byte blocks with the given block cipher
and initial chaining value. -/
def cbcEncryptBlocks (enc : List Nat → List Nat) (iv : List Nat) :
    List (List Nat) → List (List Nat)
  | [] => []
  | b :: rest =>
    let c := enc (xorBytes iv b)
    c :: cbcEncryptBlocks enc c rest

/-- Pad with `0x80 0x00 ...` up to a multiple of 8 only when the length is not
already a multiple of 8 (the ECB/CBC encryption functions of the source). -/
def padIfNeeded (msg : List Nat) : List Nat :=
  if msg.length % 8 = 0 then msg else msg ++ opgpPadding.take (8 - msg.length % 8)

/-- Pad with `0x80 0x00 ...` to a multiple of 8, always appending at least one
byte (a full block when the length is already a multiple of 8): the source
feeds `padding, 8 - (messageLength % 8)` unconditionally. -/
def padAlways (msg : List Nat) : List Nat :=
  msg ++ opgpPadding.take (8 - msg.length % 8)

/-! ### The encryption and MAC routines of crypto.c -/

/-- Embeds `calculate_enc_ecb_single_des` (crypto.c:586): single-DES ECB under
the first 8 key bytes, padding only when needed. -/
def calculate_enc_ecb_single_des (key msg : List Nat) : List Nat :=
  ((toBlocks (padIfNeeded msg)).map (desEncrypt (key.take 8))).flatten

/-- Embeds `calculate_enc_ecb_two_key_triple_des` (crypto.c:522): two-key
3DES ECB, padding only when needed. -/
def calculate_enc_ecb_two_key_triple_des (key msg : List Nat) : List Nat :=
  ((toBlocks (padIfNeeded msg)).map (tdesEncrypt key)).flatten

/-- Embeds `calculate_enc_cbc` (crypto.c:745): two-key 3DES CBC with the zero
`icv`, padding only when needed. -/
def calculate_enc_cbc (key msg : List Nat) : List Nat :=
  (cbcEncryptBlocks (tdesEncrypt key) icv (toBlocks (padIfNeeded msg))).flatten

/-- Embeds `calculate_enc_cbc_SCP02` (crypto.c:112): two-key 3DES CBC with the
zero `icv`, always padding (a full pad block when the length is a multiple
of 8). -/
def calculate_enc_cbc_SCP02 (key msg : List Nat) : List Nat :=
  (cbcEncryptBlocks (tdesEncrypt key) icv (toBlocks (padAlways msg))).flatten

/-- Embeds `calculate_MAC` (crypto.c:650): plain two-key 3DES-CBC MAC with
mandatory `0x80` padding; every block, including all non-final ones, goes
through full 3DES, and the MAC is the last ciphertext block. -/
def calculate_MAC (sessionKey msg icvIn : List Nat) : List Nat :=
  (cbcEncryptBlocks (tdesEncrypt sessionKey) (icvIn.take 8) (toBlocks (padAlways msg))).getLastD
    (icvIn.take 8)

/-- Embeds `calculate_MAC_des_3des` (crypto.c:873), the Retail MAC
(ISO 9797-1 algorithm 3): all full message blocks go through single-DES CBC
under the left half key; the remaining bytes plus the mandatory `0x80` padding
form one final block that goes through two-key 3DES chained on the DES state
(or on the initial chaining value when the message is shorter than 8 bytes). -/
def calculate_MAC_des_3des (tdesKey msg initialICV : List Nat) : List Nat :=
  let fullLen := msg.length - msg.length % 8
  let desState := (cbcEncryptBlocks (desEncrypt (tdesKey.take 8)) (initialICV.take 8)
    (toBlocks (msg.take fullLen))).getLastD (initialICV.take 8)
  let finalBlock := msg.drop fullLen ++ opgpPadding.take (8 - msg.length % 8)
  tdesEncrypt tdesKey (xorBytes desState finalBlock)

/-- Embeds `calculate_MAC_aes` (crypto.c:706): the full 16-byte AES-128-CMAC of
the message.  The CMAC computation itself lives in OpenSSL, outside this
repository, so it is the explicit parameter `aesCmac`. -/
def calculate_MAC_aes (aesCmac : List Nat → List Nat → List Nat)
    (key msg : List Nat) : List Nat :=
  aesCmac key msg

/-- Embeds `calculate_CMAC_aes` (crypto.c:64): AES-CMAC over the 16-byte
chaining value followed by the message. -/
def calculate_CMAC_aes (aesCmac : List Nat → List Nat → List Nat)
    (sMacKey msg chainingValue : List Nat) : List Nat :=
  aesCmac sMacKey (chainingValue.take 16 ++ msg)

/-! ### Cryptograms and session-key derivation -/

/-- Embeds `calculate_card_cryptogram_SCP02` (crypto.c:200): `calculate_MAC`
with the zero `icv` over `hostChallenge ‖ sequenceCounter ‖ cardChallenge`. -/
def calculate_card_cryptogram_SCP02 (sEncSessionKey sequenceCounter cardChallenge
    hostChallenge : List Nat) : List Nat :=
  calculate_MAC sEncSessionKey
    (hostChallenge.take 8 ++ sequenceCounter.take 2 ++ cardChallenge.take 6) icv

/-- Embeds `create_session_key_SCP03` (crypto.c:485): fills the 32-byte
derivation buffer (11 zero bytes of label, the derivation constant, the
separation indicator `0x00`, the key length `0x00 0x80`, the counter `0x01`,
then host challenge and card challenge) and returns its full 16-byte
AES-CMAC. -/
def create_session_key_SCP03 (aesCmac : List Nat → List Nat → List Nat)
    (key : List Nat) (derivationConstant : Nat)
    (cardChallenge hostChallenge : List Nat) : List Nat :=
  let d0 := List.replicate 32 0
  let d1 := splice d0 11 [derivationConstant % 256, 0x00, 0x00, 0x80, 0x01]
  let d2 := splice d1 16 (hostChallenge.take 8)
  let d3 := splice d2 24 (cardChallenge.take 8)
  calculate_MAC_aes aesCmac key (d3.take 32)

/-! ### Receipts -/

/-- The error kinds surfaced by the modelled functions. -/
inductive OPGPError where
  | insufficientBuffer
  | unrecognizedApdu
  | commandSecureMessagingTooLarge
  | scp03SecurityLevel3NotSupported
  | validationFailed
  | validationRMAC
  deriving DecidableEq, Repr

/-- Embeds `validate_receipt` (crypto.c:958): Retail-MAC the validation data
with the zero `icv` and compare against the first 8 receipt bytes. -/
def validate_receipt (validationData receipt receiptKey : List Nat) :
    Except OPGPError Unit :=
  let mac := calculate_MAC_des_3des receiptKey validationData icv
  if mac ≠ receipt.take 8 then Except.error .validationFailed
  else Except.ok ()

/-- Embeds the buffer construction of `validate_delete_receipt`
(crypto.c:995-1003) on a freshly `malloc`ed buffer whose indeterminate initial
contents are the explicit parameter `uninit`.  The two `memcpy` calls at
crypto.c:999 and crypto.c:1002 write `cardUniqueData` and `AID` to offset 0 of
the buffer (not at the running offset `i`), exactly as the source does. -/
def build_delete_validation_data (uninit : List Nat) (confirmationCounter : Nat)
    (cardUniqueData aid : List Nat) : List Nat :=
  let v0 := splice uninit 0
    [2, (confirmationCounter &&& 0xFF00) >>> 8, confirmationCounter &&& 0xFF,
     cardUniqueData.length % 256]
  let v1 := splice v0 0 cardUniqueData
  let v2 := splice v1 (4 + cardUniqueData.length) [aid.length % 256]
  splice v2 0 aid

/-- Embeds `validate_delete_receipt` (crypto.c:978): build the validation data
(with the source's offset-0 copies) and validate the receipt over it. -/
def validate_delete_receipt (uninit : List Nat) (confirmationCounter : Nat)
    (cardUniqueData receiptKey receipt aid : List Nat) : Except OPGPError Unit :=
  let len := 1 + 2 + 1 + cardUniqueData.length + 1 + aid.length
  let vd := (build_delete_validation_data uninit confirmationCounter cardUniqueData aid).take len
  validate_receipt vd receipt receiptKey

/-- The delete-receipt validation data as the spec (§4.5) lays it out:
`[0x02, ctrHi, ctrLo, |uid|] ‖ uid ‖ [|AID|] ‖ AID`. -/
def deleteValidationData_spec (confirmationCounter : Nat)
    (cardUniqueData aid : List Nat) : List Nat :=
  [2, (confirmationCounter &&& 0xFF00) >>> 8, confirmationCounter &&& 0xFF,
   cardUniqueData.length % 256] ++ cardUniqueData ++ [aid.length % 256] ++ aid

/-! ### Protocol constants

Modelled from the spec: these wire constants are declared in the library's
public header, which is not under `src/`; the values are the GlobalPlatform
2.1.1 wire values (EXTERNAL AUTHENTICATE security levels and the i-parameter
option codes), which the spec (§6) says must not be renumbered. -/

/-- Modelled from the spec: the SCP01 protocol identifier. -/
def GP211_SCP01 : Nat := 0x01

/-- Modelled from the spec: the SCP02 protocol identifier. -/
def GP211_SCP02 : Nat := 0x02

/-- Modelled from the spec: the SCP03 protocol identifier. -/
def GP211_SCP03 : Nat := 0x03

/-- Modelled from the spec: SCP01 security level C-DEC + C-MAC. -/
def GP211_SCP01_SECURITY_LEVEL_C_DEC_C_MAC : Nat := 0x03

/-- Modelled from the spec: SCP01 security level C-MAC. -/
def GP211_SCP01_SECURITY_LEVEL_C_MAC : Nat := 0x01

/-- Modelled from the spec: SCP01 security level without secure messaging. -/
def GP211_SCP01_SECURITY_LEVEL_NO_SECURE_MESSAGING : Nat := 0x00

/-- Modelled from the spec: SCP02 security level C-DEC + C-MAC + R-MAC. -/
def GP211_SCP02_SECURITY_LEVEL_C_DEC_C_MAC_R_MAC : Nat := 0x13

/-- Modelled from the spec: SCP02 security level C-MAC + R-MAC. -/
def GP211_SCP02_SECURITY_LEVEL_C_MAC_R_MAC : Nat := 0x11

/-- Modelled from the spec: SCP02 security level R-MAC only. -/
def GP211_SCP02_SECURITY_LEVEL_R_MAC : Nat := 0x10

/-- Modelled from the spec: SCP02 security level C-DEC + C-MAC. -/
def GP211_SCP02_SECURITY_LEVEL_C_DEC_C_MAC : Nat := 0x03

/-- Modelled from the spec: SCP02 security level C-MAC. -/
def GP211_SCP02_SECURITY_LEVEL_C_MAC : Nat := 0x01

/-- Modelled from the spec: SCP02 security level without secure messaging. -/
def GP211_SCP02_SECURITY_LEVEL_NO_SECURE_MESSAGING : Nat := 0x00

/-- Modelled from the spec: SCP03 security level C-DEC + C-MAC. -/
def GP211_SCP03_SECURITY_LEVEL_C_DEC_C_MAC : Nat := 0x03

/-- Modelled from the spec: SCP03 security level C-MAC. -/
def GP211_SCP03_SECURITY_LEVEL_C_MAC : Nat := 0x01

/-- Modelled from the spec: SCP03 security level without secure messaging. -/
def GP211_SCP03_SECURITY_LEVEL_NO_SECURE_MESSAGING : Nat := 0x00

/-- Modelled from the spec: the SCP02 i-parameter option code `i04`. -/
def GP211_SCP02_IMPL_i04 : Nat := 0x04

/-- Modelled from the spec: the SCP02 i-parameter option code `i05`. -/
def GP211_SCP02_IMPL_i05 : Nat := 0x05

/-- Modelled from the spec: the SCP02 i-parameter option code `i0A`. -/
def GP211_SCP02_IMPL_i0A : Nat := 0x0A

/-- Modelled from the spec: the SCP02 i-parameter option code `i0B`. -/
def GP211_SCP02_IMPL_i0B : Nat := 0x0B

/-- Modelled from the spec: the SCP02 i-parameter option code `i14`. -/
def GP211_SCP02_IMPL_i14 : Nat := 0x14

/-- Modelled from the spec: the SCP02 i-parameter option code `i15`. -/
def GP211_SCP02_IMPL_i15 : Nat := 0x15

/-- Modelled from the spec: the SCP02 i-parameter option code `i1A`. -/
def GP211_SCP02_IMPL_i1A : Nat := 0x1A

/-- Modelled from the spec: the SCP02 i-parameter option code `i1B`. -/
def GP211_SCP02_IMPL_i1B : Nat := 0x1B

/-- Modelled from the spec: the SCP02 i-parameter option code `i44`. -/
def GP211_SCP02_IMPL_i44 : Nat := 0x44

/-- Modelled from the spec: the SCP02 i-parameter option code `i45`. -/
def GP211_SCP02_IMPL_i45 : Nat := 0x45

/-- Modelled from the spec: the SCP02 i-parameter option code `i54`. -/
def GP211_SCP02_IMPL_i54 : Nat := 0x54

/-- Modelled from the spec: the SCP02 i-parameter option code `i55`. -/
def GP211_SCP02_IMPL_i55 : Nat := 0x55

/-- Modelled from the spec: the SCP01 i-parameter option code `i05`. -/
def GP211_SCP01_IMPL_i05 : Nat := 0x05

/-- Modelled from the spec: the SCP01 i-parameter option code `i15`. -/
def GP211_SCP01_IMPL_i15 : Nat := 0x15

/-- Modelled from the spec: the SCP03 i-parameter option code `i00`. -/
def GP211_SCP03_IMPL_i00 : Nat := 0x00

/-- The session state handle `GP211_SECURITY_INFO` held across APDUs.  The key
and chaining fields are fixed-width byte arrays in C (16 bytes, and 8 for
`lastR_MAC`); here they are byte lists, and the fixed widths become
hypotheses where a statement needs them. -/
structure SecurityInfo where
  secureChannelProtocol : Nat
  secureChannelProtocolImpl : Nat
  securityLevel : Nat
  encryptionSessionKey : List Nat
  C_MACSessionKey : List Nat
  R_MACSessionKey : List Nat
  dataEncryptionSessionKey : List Nat
  lastC_MAC : List Nat
  lastR_MAC : List Nat
  deriving DecidableEq, Repr

/-! ### The APDU wrapper -/

/-- The APDU case classification of `wrap_command` (crypto.c:1138-1163),
returning `(caseAPDU, le, wrappedLength, effectiveLength)` where
`effectiveLength` is the local `apduCommandLength` after the Case-4 decrement
that drops the trailing `Le` byte from all later length computations. -/
def classifyApdu (apdu : List Nat) : Except OPGPError (Nat × Nat × Nat × Nat) :=
  if apdu.length = 4 then Except.ok (1, 0, 4, 4)
  else if apdu.length = 5 then Except.ok (2, apdu.getD 4 0, 4, 5)
  else
    let lc := apdu.getD 4 0
    if lc + 5 = apdu.length then Except.ok (3, 0, lc + 5, apdu.length)
    else if lc + 5 + 1 = apdu.length then
      Except.ok (4, apdu.getD (apdu.length - 1) 0, lc + 5, apdu.length - 1)
    else Except.error .unrecognizedApdu

/-- The i-variants whose C-MAC is computed on the modified APDU
(crypto.c:1235-1244): the listed SCP02 option codes, compared numerically
regardless of protocol, plus `i00` when the protocol is SCP03. -/
def isModifiedApduImpl (si : SecurityInfo) : Bool :=
  si.secureChannelProtocolImpl == GP211_SCP02_IMPL_i04
    || si.secureChannelProtocolImpl == GP211_SCP02_IMPL_i05
    || si.secureChannelProtocolImpl == GP211_SCP02_IMPL_i14
    || si.secureChannelProtocolImpl == GP211_SCP02_IMPL_i15
    || si.secureChannelProtocolImpl == GP211_SCP02_IMPL_i55
    || si.secureChannelProtocolImpl == GP211_SCP02_IMPL_i45
    || si.secureChannelProtocolImpl == GP211_SCP02_IMPL_i54
    || si.secureChannelProtocolImpl == GP211_SCP02_IMPL_i44
    || (si.secureChannelProtocolImpl == GP211_SCP03_IMPL_i00
        && si.secureChannelProtocol == GP211_SCP03)

/-- The i-variants whose C-MAC is computed on the unmodified APDU
(crypto.c:1337-1340). -/
def isUnmodifiedApduImpl (si : SecurityInfo) : Bool :=
  si.secureChannelProtocolImpl == GP211_SCP02_IMPL_i0A
    || si.secureChannelProtocolImpl == GP211_SCP02_IMPL_i0B
    || si.secureChannelProtocolImpl == GP211_SCP02_IMPL_i1A
    || si.secureChannelProtocolImpl == GP211_SCP02_IMPL_i1B

/-- The ICV-encryption step of `wrap_command` (crypto.c:1272-1302): for the
SCP02 i-variants with encrypted ICV, single-DES-ECB of `lastC_MAC` under the
C-MAC session key (of which `calculate_enc_ecb_single_des` uses the first 8
bytes); for SCP01 `i15`, two-key 3DES-ECB; otherwise `lastC_MAC` itself.  For
SCP03 the C leaves `C_MAC_ICV` uninitialized and never reads it; the model
returns `lastC_MAC`, which is equally never read on SCP03 paths. -/
def computeICV (si : SecurityInfo) : List Nat :=
  if si.secureChannelProtocol = GP211_SCP02 then
    if si.secureChannelProtocolImpl = GP211_SCP02_IMPL_i14
        ∨ si.secureChannelProtocolImpl = GP211_SCP02_IMPL_i15
        ∨ si.secureChannelProtocolImpl = GP211_SCP02_IMPL_i1A
        ∨ si.secureChannelProtocolImpl = GP211_SCP02_IMPL_i1B
        ∨ si.secureChannelProtocolImpl = GP211_SCP02_IMPL_i54
        ∨ si.secureChannelProtocolImpl = GP211_SCP02_IMPL_i55 then
      calculate_enc_ecb_single_des si.C_MACSessionKey (si.lastC_MAC.take 8)
    else si.lastC_MAC.take 8
  else if si.secureChannelProtocol = GP211_SCP01 then
    if si.secureChannelProtocolImpl = GP211_SCP01_IMPL_i15 then
      calculate_enc_ecb_two_key_triple_des si.C_MACSessionKey (si.lastC_MAC.take 8)
    else si.lastC_MAC.take 8
  else si.lastC_MAC.take 8

/-- The tail of `wrap_command` from the MAC placement onward
(crypto.c:1370-1432): append the MAC, re-append `Le`, and for the C-DEC levels
encrypt the data field, rebuild `Lc`, and re-place MAC and `Le`.  The chained
MAC has already been stored into `si2` by the caller, so the two late
insufficient-buffer exits here return the updated state. -/
def wrapFinish (si2 : SecurityInfo) (bufLen caseAPDU le wl2 : Nat)
    (wrapped2 mac : List Nat) : Except OPGPError (List Nat) × Option SecurityInfo :=
  let wrapped3 := splice wrapped2 (wl2 - 8) (mac.take 8)
  let wrapped4 := if caseAPDU = 2 ∨ caseAPDU = 4 then splice wrapped3 wl2 [le % 256] else wrapped3
  let wl4 := if caseAPDU = 2 ∨ caseAPDU = 4 then wl2 + 1 else wl2
  if si2.securityLevel = GP211_SCP01_SECURITY_LEVEL_C_DEC_C_MAC
      ∨ si2.securityLevel = GP211_SCP02_SECURITY_LEVEL_C_DEC_C_MAC
      ∨ si2.securityLevel = GP211_SCP02_SECURITY_LEVEL_C_DEC_C_MAC_R_MAC then
    let wrapped5 := splice wrapped4 4 [(wrapped4.getD 4 0 + 248) % 256]
    let encInput :=
      if si2.secureChannelProtocol = GP211_SCP02 then
        (wrapped5.drop 5).take (wl4 - 5 - 8 - (if caseAPDU = 2 ∨ caseAPDU = 4 then 1 else 0))
      else
        (wrapped5.drop 4).take (wl4 - 4 - 8 - (if caseAPDU = 2 ∨ caseAPDU = 4 then 1 else 0))
    let enc :=
      if si2.secureChannelProtocol = GP211_SCP02 then
        calculate_enc_cbc_SCP02 si2.encryptionSessionKey encInput
      else
        calculate_enc_cbc si2.encryptionSessionKey encInput
    let wl5 := enc.length + 4 + 1 + 8
    if bufLen < wl5 then (Except.error .insufficientBuffer, some si2)
    else
      let wrapped6 := splice (splice (splice wrapped5 5 enc) 4 [(enc.length + 8) % 256])
        (enc.length + 5) (mac.take 8)
      if caseAPDU = 2 ∨ caseAPDU = 4 then
        if bufLen < wl5 + 1 then (Except.error .insufficientBuffer, some si2)
        else (Except.ok ((splice wrapped6 wl5 [le % 256]).take (wl5 + 1)), some si2)
      else (Except.ok (wrapped6.take wl5), some si2)
  else (Except.ok (wrapped4.take wl4), some si2)

/-- The straight-line middle of `wrap_command` (crypto.c:1235-1370): the header
rewrite for the modified-APDU i-variants, the ICV derivation, the C-MAC
computation, the header rewrite for the unmodified-APDU i-variants, and the
`lastC_MAC` store, ending in `wrapFinish`.  All of it is pure and total, so
the caller performs every buffer-length check up front. -/
def wrapMacPhase (aesCmac : List Nat → List Nat → List Nat) (si : SecurityInfo)
    (apduCommand : List Nat) (bufLen caseAPDU le wl0 : Nat) :
    Except OPGPError (List Nat) × Option SecurityInfo :=
  let wrapped1 :=
    if isModifiedApduImpl si then
      splice (splice apduCommand 4
          [if caseAPDU = 1 ∨ caseAPDU = 2 then 8
           else (apduCommand.getD 4 0 + 8) % 256])
        0 [(apduCommand.getD 0 0) ||| 4]
    else apduCommand
  let wl1 :=
    if isModifiedApduImpl si then
      (if caseAPDU = 1 ∨ caseAPDU = 2 then wl0 + 8 + 1 else wl0 + 8)
    else wl0
  let macICV := computeICV si
  let mac :=
    if si.secureChannelProtocol = GP211_SCP02 then
      calculate_MAC_des_3des si.C_MACSessionKey (wrapped1.take (wl1 - 8)) macICV
    else if si.secureChannelProtocol = GP211_SCP01 then
      calculate_MAC si.C_MACSessionKey (wrapped1.take (wl1 - 8)) macICV
    else if si.securityLevel = GP211_SCP03_SECURITY_LEVEL_C_MAC then
      calculate_CMAC_aes aesCmac si.C_MACSessionKey (wrapped1.take (wl1 - 8))
        si.lastC_MAC
    else List.replicate 16 0
  let wrapped2 :=
    if isUnmodifiedApduImpl si then
      splice (splice wrapped1 4
          [if caseAPDU = 1 ∨ caseAPDU = 2 then 8
           else (wrapped1.getD 4 0 + 8) % 256])
        0 [(apduCommand.getD 0 0) ||| 4]
    else wrapped1
  let wl2 :=
    if isUnmodifiedApduImpl si then
      (if caseAPDU = 1 ∨ caseAPDU = 2 then wl1 + 8 + 1 else wl1 + 8)
    else wl1
  let si2 :=
    if si.secureChannelProtocol ≠ GP211_SCP03 then
      { si with lastC_MAC := mac.take 8 ++ si.lastC_MAC.drop 8 }
    else if si.securityLevel = GP211_SCP03_SECURITY_LEVEL_C_MAC then
      { si with lastC_MAC := mac.take 16 ++ si.lastC_MAC.drop 16 }
    else si
  wrapFinish si2 bufLen caseAPDU le wl2 wrapped2 mac

/-- The body of `wrap_command` once a non-null `secInfo` with an active
security level might apply (crypto.c:1124-1433): the no-secure-messaging
passthrough, the SCP03 security-level-3 rejection, the case classification,
the length budgets, the buffer checks of both header-rewrite variants, and the
MAC/encryption phase.  The source interleaves the unmodified-variant buffer
checks (crypto.c:1345, 1353) after the MAC computation; the model performs
them just before `wrapMacPhase`, which is observationally identical because
the model's MAC computation is pure, total, and free of state effects. -/
def wrapWithSecurity (aesCmac : List Nat → List Nat → List Nat) (si : SecurityInfo)
    (apduCommand : List Nat) (bufLen : Nat) :
    Except OPGPError (List Nat) × Option SecurityInfo :=
  if si.securityLevel = GP211_SCP02_SECURITY_LEVEL_NO_SECURE_MESSAGING
      ∨ si.securityLevel = GP211_SCP01_SECURITY_LEVEL_NO_SECURE_MESSAGING
      ∨ si.securityLevel = GP211_SCP03_SECURITY_LEVEL_NO_SECURE_MESSAGING then
    (Except.ok apduCommand, some si)
  else if si.secureChannelProtocol = GP211_SCP03
      ∧ si.securityLevel = GP211_SCP03_SECURITY_LEVEL_C_DEC_C_MAC then
    (Except.error .scp03SecurityLevel3NotSupported, some si)
  else
    match classifyApdu apduCommand with
    | Except.error e => (Except.error e, some si)
    | Except.ok (caseAPDU, le, wl0, effLen) =>
      if (si.securityLevel = GP211_SCP01_SECURITY_LEVEL_C_DEC_C_MAC
            ∨ si.securityLevel = GP211_SCP02_SECURITY_LEVEL_C_DEC_C_MAC
            ∨ si.securityLevel = GP211_SCP02_SECURITY_LEVEL_C_DEC_C_MAC_R_MAC
            ∨ si.securityLevel = GP211_SCP03_SECURITY_LEVEL_C_DEC_C_MAC)
          ∧ ((caseAPDU = 3
                ∧ effLen > (if si.secureChannelProtocol ≠ GP211_SCP03
                    then 239 + 8 + 5 else 231 + 8 + 5))
            ∨ (caseAPDU = 4
                ∧ effLen > (if si.secureChannelProtocol ≠ GP211_SCP03
                    then 239 + 8 + 5 + 1 else 231 + 8 + 5 + 1))) then
        (Except.error .commandSecureMessagingTooLarge, some si)
      else if (si.securityLevel = GP211_SCP01_SECURITY_LEVEL_C_MAC
            ∨ si.securityLevel = GP211_SCP02_SECURITY_LEVEL_C_MAC
            ∨ si.securityLevel = GP211_SCP02_SECURITY_LEVEL_C_MAC_R_MAC
            ∨ si.securityLevel = GP211_SCP03_SECURITY_LEVEL_C_MAC)
          ∧ ((caseAPDU = 3 ∧ effLen > 247 + 8 + 5)
            ∨ (caseAPDU = 4 ∧ effLen > 247 + 8 + 5 + 1)) then
        (Except.error .commandSecureMessagingTooLarge, some si)
      else if isModifiedApduImpl si ∧ (caseAPDU = 1 ∨ caseAPDU = 2)
          ∧ bufLen < effLen + 8 + 1 then
        (Except.error .insufficientBuffer, some si)
      else if isModifiedApduImpl si ∧ (caseAPDU = 3 ∨ caseAPDU = 4)
          ∧ bufLen < effLen + 8 then
        (Except.error .insufficientBuffer, some si)
      else if isUnmodifiedApduImpl si ∧ (caseAPDU = 1 ∨ caseAPDU = 2)
          ∧ bufLen < effLen + 8 + 1 then
        (Except.error .insufficientBuffer, some si)
      else if isUnmodifiedApduImpl si ∧ (caseAPDU = 3 ∨ caseAPDU = 4)
          ∧ bufLen < effLen + 8 then
        (Except.error .insufficientBuffer, some si)
      else wrapMacPhase aesCmac si apduCommand bufLen caseAPDU le wl0

/-- Embeds `wrap_command` (crypto.c:1101-1440).  The in/out buffer becomes the
available length `bufLen` plus the returned wrapped bytes; the in-place update
of `secInfo->lastC_MAC` becomes the returned `Option SecurityInfo`.  Errors
raised before the chain store (crypto.c:1365-1369) return the state unchanged;
the late insufficient-buffer exits of the encryption phase (inside
`wrapFinish`) return the already-updated state, as the C does. -/
def wrap_command (aesCmac : List Nat → List Nat → List Nat) (apduCommand : List Nat)
    (bufLen : Nat) (secInfo : Option SecurityInfo) :
    Except OPGPError (List Nat) × Option SecurityInfo :=
  if bufLen < apduCommand.length then (Except.error .insufficientBuffer, secInfo)
  else
    match secInfo with
    | none => (Except.ok apduCommand, none)
    | some si => wrapWithSecurity aesCmac si apduCommand bufLen

/-- The insufficient-buffer conditions `wrap_command` tests before the MAC
chain store: the initial output-buffer check (crypto.c:1114) and the four
per-case checks of the MAC phase (crypto.c:1250, 1259, 1345, 1353, hoisted
into `wrapWithSecurity` before `wrapMacPhase`).  The encryption-phase check
(crypto.c:1420) is deliberately not among them: it runs after the store. -/
def earlyBufferReject (si : SecurityInfo) (apduCommand : List Nat) (bufLen : Nat) : Prop :=
  bufLen < apduCommand.length
  ∨ ∃ caseAPDU le wl0 effLen,
      classifyApdu apduCommand = Except.ok (caseAPDU, le, wl0, effLen)
      ∧ ((isModifiedApduImpl si ∧ (caseAPDU = 1 ∨ caseAPDU = 2) ∧ bufLen < effLen + 8 + 1)
        ∨ (isModifiedApduImpl si ∧ (caseAPDU = 3 ∨ caseAPDU = 4) ∧ bufLen < effLen + 8)
        ∨ (isUnmodifiedApduImpl si ∧ (caseAPDU = 1 ∨ caseAPDU = 2) ∧ bufLen < effLen + 8 + 1)
        ∨ (isUnmodifiedApduImpl si ∧ (caseAPDU = 3 ∨ caseAPDU = 4) ∧ bufLen < effLen + 8))

/-! ### R-MAC -/

/-- Embeds `GP211_calculate_R_MAC` (crypto.c:1541): Retail-MAC, chained on
`lastR_MAC`, over `commandHeader(4) ‖ Lc ‖ commandData ‖ (responseLength mod
256) ‖ responseData ‖ statusWord(2)`. -/
def GP211_calculate_R_MAC (commandHeader commandData : List Nat)
    (commandDataLength : Nat) (responseData : List Nat) (responseDataLength : Nat)
    (statusWord : List Nat) (si : SecurityInfo) : List Nat :=
  let rMacData := commandHeader.take 4 ++ [commandDataLength % 256]
    ++ commandData.take commandDataLength ++ [responseDataLength % 256]
    ++ responseData.take responseDataLength ++ statusWord.take 2
  calculate_MAC_des_3des si.R_MACSessionKey rMacData (si.lastR_MAC.take 8)

/-- Embeds `GP211_check_R_MAC` (crypto.c:1593).  Note that the source passes
`apduCommand` itself as the command-data pointer and the first `Lc` bytes of it
as command data, and that the MACed response span of length
`responseDataLength - 2` includes the received R-MAC bytes; both are modelled
as the source computes them. -/
def GP211_check_R_MAC (apduCommand responseData : List Nat)
    (secInfo : Option SecurityInfo) : Except OPGPError Unit × Option SecurityInfo :=
  match secInfo with
  | none => (Except.ok (), none)
  | some si =>
    if si.securityLevel ≠ GP211_SCP02_SECURITY_LEVEL_C_DEC_C_MAC_R_MAC
        ∧ si.securityLevel ≠ GP211_SCP02_SECURITY_LEVEL_R_MAC
        ∧ si.securityLevel ≠ GP211_SCP02_SECURITY_LEVEL_C_MAC_R_MAC then
      (Except.ok (), some si)
    else
      let classified : Except OPGPError Nat :=
        if apduCommand.length = 4 then Except.ok 0
        else if apduCommand.length = 5 then Except.ok 0
        else
          let lc := apduCommand.getD 4 0
          if lc + 5 = apduCommand.length then Except.ok lc
          else if lc + 5 + 1 = apduCommand.length then Except.ok lc
          else Except.error .unrecognizedApdu
      match classified with
      | Except.error e => (Except.error e, some si)
      | Except.ok lc =>
        let le := responseData.length - 2
        let mac := GP211_calculate_R_MAC apduCommand apduCommand lc responseData le
          (responseData.drop (responseData.length - 2)) si
        if mac ≠ (responseData.drop (responseData.length - 10)).take 8 then
          (Except.error .validationRMAC, some si)
        else
          (Except.ok (), some { si with lastR_MAC := mac.take 8 ++ si.lastR_MAC.drop 8 })

/-- The computed R-MAC that `GP211_check_R_MAC` compares against, exactly as
the source invokes `GP211_calculate_R_MAC` at crypto.c:1636: the command is
passed both as header and as command data, `Lc` is 0 for Case 1/2, and the
MACed response span has length `responseLength - 2`. -/
def checkedRMac (apdu resp : List Nat) (si : SecurityInfo) : List Nat :=
  GP211_calculate_R_MAC apdu apdu
    (if apdu.length = 4 ∨ apdu.length = 5 then 0 else apdu.getD 4 0)
    resp (resp.length - 2) (resp.drop (resp.length - 2)) si

/-! ### Definitions following the spec's words, for comparison -/

/-- The Retail-MAC exactly as claim C2 words it (ISO 9797-1 algorithm 3): pad
the message with `0x80 0x00 ...`, run all blocks except the last through
single-DES-CBC under the left half key, and the last block through two-key
3DES-CBC. -/
def retailMAC_spec (key ivIn msg : List Nat) : List Nat :=
  let blocks := toBlocks (msg ++ opgpPadding.take (8 - msg.length % 8))
  let chain := (cbcEncryptBlocks (desEncrypt (key.take 8)) ivIn blocks.dropLast).getLastD ivIn
  tdesEncrypt key (xorBytes chain (blocks.getLastD (List.replicate 8 0)))

/-- The plain two-key 3DES-CBC MAC in the spec's words (§4.1, "Single-3DES-CBC
MAC"): 3DES-CBC with mandatory `0x80 0x00 ...` padding; the output is the last
ciphertext block. -/
def tdesCbcMacSpec (key ivIn msg : List Nat) : List Nat :=
  (cbcEncryptBlocks (tdesEncrypt key) ivIn
    (toBlocks (msg ++ opgpPadding.take (8 - msg.length % 8)))).getLastD ivIn

/-! ### Concrete fixtures for witnesses and counterexamples -/

/-- A 16-byte test key `40 41 ... 4F` (its two DES halves differ). -/
def testKey16 : List Nat :=
  [0x40, 0x41, 0x42, 0x43, 0x44, 0x45, 0x46, 0x47,
   0x48, 0x49, 0x4A, 0x4B, 0x4C, 0x4D, 0x4E, 0x4F]

/-- A trivial stand-in for the AES-CMAC parameter, usable wherever a witness
runs a path that never consults CMAC values. -/
def cmacZero : List Nat → List Nat → List Nat := fun _ _ => List.replicate 16 0

/-- An SCP02 `i05` session at security level C-DEC + C-MAC with an all-zero
MAC chain, as freshly established. -/
def siCdec : SecurityInfo :=
  { secureChannelProtocol := GP211_SCP02
    secureChannelProtocolImpl := GP211_SCP02_IMPL_i05
    securityLevel := GP211_SCP02_SECURITY_LEVEL_C_DEC_C_MAC
    encryptionSessionKey := testKey16
    C_MACSessionKey := testKey16
    R_MACSessionKey := testKey16
    dataEncryptionSessionKey := testKey16
    lastC_MAC := List.replicate 16 0
    lastR_MAC := List.replicate 8 0 }

/-- An SCP02 `i05` session at security level C-MAC. -/
def siCmac : SecurityInfo :=
  { siCdec with securityLevel := GP211_SCP02_SECURITY_LEVEL_C_MAC }

/-- An SCP02 session at security level R-MAC. -/
def siRmac : SecurityInfo :=
  { siCdec with securityLevel := GP211_SCP02_SECURITY_LEVEL_R_MAC }

/-- An SCP03 `i00` session at security level C-DEC + C-MAC. -/
def siScp03Cdec : SecurityInfo :=
  { siCdec with
    secureChannelProtocol := GP211_SCP03
    secureChannelProtocolImpl := GP211_SCP03_IMPL_i00
    securityLevel := GP211_SCP03_SECURITY_LEVEL_C_DEC_C_MAC }

/-- An SCP02 session on the ICV-encrypting i-variant `i15`. -/
def siIcv : SecurityInfo :=
  { siCdec with secureChannelProtocolImpl := GP211_SCP02_IMPL_i15 }

/-- A Case-3 APDU with one data byte. -/
def apduCase3One : List Nat := [0x80, 0xE8, 0x00, 0x00, 0x01, 0xAA]

/-- A malformed APDU: 7 bytes long but its `Lc` byte claims 9 data bytes. -/
def apduMalformed : List Nat := [0x80, 0xE8, 0x00, 0x00, 0x09, 0x01, 0x02]

end GPCrypto

namespace GPCrypto

/-! ## Helper lemmas -/

theorem length_natToBytes8 (x : Nat) : (natToBytes8 x).length = 8 := by
  simp [natToBytes8]

theorem length_desEncrypt (k b : List Nat) : (desEncrypt k b).length = 8 := by
  simp [desEncrypt, length_natToBytes8]

theorem length_tdesEncrypt (k b : List Nat) : (tdesEncrypt k b).length = 8 := by
  simp [tdesEncrypt, length_desEncrypt]

theorem length_calculate_MAC_des_3des (k m i : List Nat) :
    (calculate_MAC_des_3des k m i).length = 8 := by
  simp [calculate_MAC_des_3des, length_tdesEncrypt]

theorem splice_length (dst : List Nat) (pos : Nat) (src : List Nat) :
    (splice dst pos src).length
      = min pos dst.length + src.length + (dst.length - (pos + src.length)) := by
  simp [splice]
  omega

theorem length_cbcEncryptBlocks (enc : List Nat → List Nat) (iv : List Nat)
    (bs : List (List Nat)) : (cbcEncryptBlocks enc iv bs).length = bs.length := by
  induction bs generalizing iv with
  | nil => simp [cbcEncryptBlocks]
  | cons b rest ih => simp [cbcEncryptBlocks, ih]

theorem length_flatten_cbc_tdes (k iv : List Nat) (bs : List (List Nat)) :
    ((cbcEncryptBlocks (tdesEncrypt k) iv bs).flatten).length = 8 * bs.length := by
  induction bs generalizing iv with
  | nil => simp [cbcEncryptBlocks]
  | cons b rest ih =>
    simp [cbcEncryptBlocks, ih, length_tdesEncrypt]
    ring

theorem toBlocksF_irrel (f : Nat) : ∀ (g : Nat) (l : List Nat),
    l.length ≤ f → l.length ≤ g → toBlocksF f l = toBlocksF g l := by
  induction f with
  | zero =>
    intro g l hf hg
    have hl : l = [] := List.eq_nil_of_length_eq_zero (by omega)
    subst hl
    cases g <;> rfl
  | succ f ih =>
    intro g l hf hg
    cases l with
    | nil => cases g <;> rfl
    | cons a t =>
      cases g with
      | zero => simp at hg
      | succ g =>
        simp only [toBlocksF]
        rw [ih g ((a :: t).drop 8)
          (by simp only [List.length_drop, List.length_cons] at hf ⊢; omega)
          (by simp only [List.length_drop, List.length_cons] at hg ⊢; omega)]

theorem toBlocks_nil : toBlocks [] = [] := rfl

theorem toBlocks_cons (a : Nat) (t : List Nat) :
    toBlocks (a :: t) = (a :: t).take 8 :: toBlocks ((a :: t).drop 8) := by
  show toBlocksF (t.length + 1) (a :: t) = _
  rw [toBlocksF]
  rw [toBlocksF_irrel t.length ((a :: t).drop 8).length ((a :: t).drop 8)
    (by simp only [List.length_drop, List.length_cons]; omega) le_rfl]
  rfl

theorem toBlocks_length (l : List Nat) : (toBlocks l).length = (l.length + 7) / 8 := by
  suffices H : ∀ n (l : List Nat), l.length ≤ n → (toBlocks l).length = (l.length + 7) / 8 from
    H l.length l le_rfl
  intro n
  induction n with
  | zero =>
    intro l h
    have hl : l = [] := List.eq_nil_of_length_eq_zero (by omega)
    subst hl
    simp [toBlocks_nil]
  | succ n ih =>
    intro l h
    cases l with
    | nil => simp [toBlocks_nil]
    | cons a t =>
      rw [toBlocks_cons]
      have hd := ih ((a :: t).drop 8)
        (by simp only [List.length_drop, List.length_cons] at h ⊢; omega)
      simp only [List.length_cons, List.length_drop] at hd ⊢
      rw [hd]
      omega

theorem toBlocks_single (l : List Nat) (h : l.length = 8) : toBlocks l = [l] := by
  cases l with
  | nil => simp at h
  | cons a t =>
    rw [toBlocks_cons]
    rw [List.take_of_length_le (by omega), List.drop_eq_nil_of_le (by omega)]
    rfl

theorem length_padAlways (m : List Nat) :
    (padAlways m).length = m.length + (8 - m.length % 8) := by
  simp [padAlways, opgpPadding]

theorem length_calculate_enc_cbc_SCP02 (k m : List Nat) :
    (calculate_enc_cbc_SCP02 k m).length = 8 * (m.length / 8 + 1) := by
  rw [calculate_enc_cbc_SCP02, length_flatten_cbc_tdes, toBlocks_length, length_padAlways]
  omega

theorem length_calculate_enc_cbc (k m : List Nat) :
    (calculate_enc_cbc k m).length = 8 * ((m.length + 7) / 8) := by
  rw [calculate_enc_cbc, length_flatten_cbc_tdes, toBlocks_length]
  rcases Nat.eq_zero_or_pos (m.length % 8) with h | h
  · rw [padIfNeeded, if_pos h]
  · rw [padIfNeeded, if_neg (by omega)]
    simp [opgpPadding]
    omega

theorem wrapFinish_snd (si2 : SecurityInfo) (bufLen caseAPDU le wl2 : Nat)
    (wrapped2 mac : List Nat) :
    (wrapFinish si2 bufLen caseAPDU le wl2 wrapped2 mac).2 = some si2 := by
  simp only [wrapFinish]
  repeat' split
  all_goals rfl

theorem wrapFinish_error_is_buffer (si2 : SecurityInfo) (bufLen caseAPDU le wl2 : Nat)
    (wrapped2 mac : List Nat) (e : OPGPError)
    (h : (wrapFinish si2 bufLen caseAPDU le wl2 wrapped2 mac).1 = Except.error e) :
    e = OPGPError.insufficientBuffer := by
  simp only [wrapFinish] at h
  repeat' split at h
  all_goals simp_all

theorem wrapMacPhase_error_is_buffer (aesCmac : List Nat → List Nat → List Nat)
    (si : SecurityInfo) (apduCommand : List Nat) (bufLen caseAPDU le wl0 : Nat)
    (e : OPGPError)
    (h : (wrapMacPhase aesCmac si apduCommand bufLen caseAPDU le wl0).1 = Except.error e) :
    e = OPGPError.insufficientBuffer :=
  wrapFinish_error_is_buffer _ _ _ _ _ _ _ _ h

theorem wrapWithSecurity_early_buffer_unchanged (aesCmac : List Nat → List Nat → List Nat)
    (si : SecurityInfo) (apduCommand : List Nat) (bufLen : Nat)
    (h : ∃ caseAPDU le wl0 effLen,
      classifyApdu apduCommand = Except.ok (caseAPDU, le, wl0, effLen)
      ∧ ((isModifiedApduImpl si ∧ (caseAPDU = 1 ∨ caseAPDU = 2) ∧ bufLen < effLen + 8 + 1)
        ∨ (isModifiedApduImpl si ∧ (caseAPDU = 3 ∨ caseAPDU = 4) ∧ bufLen < effLen + 8)
        ∨ (isUnmodifiedApduImpl si ∧ (caseAPDU = 1 ∨ caseAPDU = 2) ∧ bufLen < effLen + 8 + 1)
        ∨ (isUnmodifiedApduImpl si ∧ (caseAPDU = 3 ∨ caseAPDU = 4) ∧ bufLen < effLen + 8))) :
    (wrapWithSecurity aesCmac si apduCommand bufLen).2 = some si := by
  obtain ⟨c, l, w, eff, hcls, hchecks⟩ := h
  unfold wrapWithSecurity
  split
  next => rfl
  next =>
    split
    next => rfl
    next =>
      split
      next heq => rfl
      next c' l' w' eff' heq =>
        rw [hcls] at heq
        injection heq with heq2
        simp only [Prod.mk.injEq] at heq2
        obtain ⟨hc, hl, hw, heff⟩ := heq2
        subst hc
        subst hl
        subst hw
        subst heff
        obtain ⟨m3, m4, hm3, hm4⟩ :
            ∃ m3 m4 : Nat,
              (if si.secureChannelProtocol ≠ GP211_SCP03
                then 239 + 8 + 5 else 231 + 8 + 5) = m3
              ∧ (if si.secureChannelProtocol ≠ GP211_SCP03
                then 239 + 8 + 5 + 1 else 231 + 8 + 5 + 1) = m4 := ⟨_, _, rfl, rfl⟩
        rw [hm3, hm4]
        split
        next => rfl
        next =>
          split
          next => rfl
          next =>
            split
            next => rfl
            next hn1 =>
              split
              next => rfl
              next hn2 =>
                split
                next => rfl
                next hn3 =>
                  split
                  next => rfl
                  next hn4 =>
                    rcases hchecks with hck | hck | hck | hck
                    · exact absurd hck hn1
                    · exact absurd hck hn2
                    · exact absurd hck hn3
                    · exact absurd hck hn4

/-! ## Claim theorems -/

/-- C8: with a null `secInfo`, or a `securityLevel` equal to the
NO_SECURE_MESSAGING value of any of SCP01, SCP02 or SCP03, `wrap_command`
copies the input to the output unchanged and succeeds for every input byte
string (no case classification is reached, so no `UnrecognizedApdu` is
possible), provided the output buffer is at least as large as the input. -/
theorem wrap_command_passthrough (aesCmac : List Nat → List Nat → List Nat)
    (apduCommand : List Nat) (bufLen : Nat) (h : apduCommand.length ≤ bufLen) :
    wrap_command aesCmac apduCommand bufLen none = (Except.ok apduCommand, none)
    ∧ ∀ si : SecurityInfo,
      (si.securityLevel = GP211_SCP02_SECURITY_LEVEL_NO_SECURE_MESSAGING
        ∨ si.securityLevel = GP211_SCP01_SECURITY_LEVEL_NO_SECURE_MESSAGING
        ∨ si.securityLevel = GP211_SCP03_SECURITY_LEVEL_NO_SECURE_MESSAGING) →
      wrap_command aesCmac apduCommand bufLen (some si) = (Except.ok apduCommand, some si) := by
  constructor
  · unfold wrap_command
    rw [if_neg (by omega)]
  · intro si hsi
    unfold wrap_command wrapWithSecurity
    rw [if_neg (by omega)]
    simp only []
    rw [if_pos hsi]

/-- C8 witness: a concrete malformed 7-byte input passes straight through a
no-secure-messaging session. -/
theorem wrap_command_passthrough_witness :
    wrap_command cmacZero apduMalformed 20 none = (Except.ok apduMalformed, none)
    ∧ wrap_command cmacZero apduMalformed 20
        (some { siCdec with securityLevel := GP211_SCP02_SECURITY_LEVEL_NO_SECURE_MESSAGING })
      = (Except.ok apduMalformed,
         some { siCdec with securityLevel := GP211_SCP02_SECURITY_LEVEL_NO_SECURE_MESSAGING }) :=
  ⟨(wrap_command_passthrough cmacZero apduMalformed 20 (by decide)).1,
   (wrap_command_passthrough cmacZero apduMalformed 20 (by decide)).2 _ (Or.inl rfl)⟩

/-- C6: under SCP03 with security level C_DEC_C_MAC, `wrap_command` rejects
every APDU with `SCP03SecurityLevel3NotSupported`, producing no wrapped output
and leaving the state untouched (the check at crypto.c:1132-1136 fires before
any classification or cryptography). -/
theorem wrap_command_scp03_sl3_rejected (aesCmac : List Nat → List Nat → List Nat)
    (apduCommand : List Nat) (bufLen : Nat) (si : SecurityInfo)
    (hbuf : apduCommand.length ≤ bufLen)
    (hp : si.secureChannelProtocol = GP211_SCP03)
    (hl : si.securityLevel = GP211_SCP03_SECURITY_LEVEL_C_DEC_C_MAC) :
    wrap_command aesCmac apduCommand bufLen (some si)
      = (Except.error OPGPError.scp03SecurityLevel3NotSupported, some si) := by
  unfold wrap_command wrapWithSecurity
  rw [if_neg (by omega)]
  simp only []
  rw [if_neg (by simp only [hl]; decide), if_pos ⟨hp, hl⟩]

/-- C6 witness: a concrete Case-3 APDU under a concrete SCP03 C_DEC_C_MAC
session is rejected. -/
theorem wrap_command_scp03_sl3_rejected_witness :
    wrap_command cmacZero apduCase3One 30 (some siScp03Cdec)
      = (Except.error OPGPError.scp03SecurityLevel3NotSupported, some siScp03Cdec) :=
  wrap_command_scp03_sl3_rejected cmacZero apduCase3One 30 siScp03Cdec
    (by decide) (by decide) (by decide)

/-- C10: `GP211_check_R_MAC` succeeds and leaves the whole `SecurityInfo`
(including `lastR_MAC`) unchanged whenever `secInfo` is null or the security
level is none of the three SCP02 R-MAC levels; the equality holds for every
response, so the response bytes are never inspected. -/
theorem check_R_MAC_frame (apdu resp : List Nat) (si : SecurityInfo)
    (h : ¬(si.securityLevel = GP211_SCP02_SECURITY_LEVEL_C_DEC_C_MAC_R_MAC
        ∨ si.securityLevel = GP211_SCP02_SECURITY_LEVEL_R_MAC
        ∨ si.securityLevel = GP211_SCP02_SECURITY_LEVEL_C_MAC_R_MAC)) :
    GP211_check_R_MAC apdu resp (some si) = (Except.ok (), some si)
    ∧ GP211_check_R_MAC apdu resp none = (Except.ok (), none) := by
  push_neg at h
  constructor
  · simp only [GP211_check_R_MAC]
    rw [if_pos h]
  · rfl

/-- C10 witness: a concrete C_MAC-level session ignores a concrete response. -/
theorem check_R_MAC_frame_witness :
    GP211_check_R_MAC apduCase3One [1, 2, 3] (some siCmac) = (Except.ok (), some siCmac)
    ∧ GP211_check_R_MAC apduCase3One [1, 2, 3] none = (Except.ok (), none) :=
  check_R_MAC_frame apduCase3One [1, 2, 3] siCmac (by decide)

/-- C1 (amended): whenever `wrap_command` returns an error that is not the
encryption-phase insufficient-buffer failure — that is, any error other than
`InsufficientBuffer`, or an `InsufficientBuffer` raised by one of the checks
that precede the chain store (`earlyBufferReject`: the initial output-buffer
check, crypto.c:1114, and the per-case buffer checks, crypto.c:1250, 1259,
1345, 1353) — the `SecurityInfo`, in particular its `lastC_MAC` chaining
value, is exactly what it was before the call.  (The insufficient-buffer
check of the encryption phase, crypto.c:1420, runs after the chain store and
is the one failure that leaves an advanced chain; see the counterexample.) -/
theorem wrap_command_chain_unchanged_on_other_errors
    (aesCmac : List Nat → List Nat → List Nat) (apduCommand : List Nat)
    (bufLen : Nat) (si : SecurityInfo) (e : OPGPError)
    (herr : (wrap_command aesCmac apduCommand bufLen (some si)).1 = Except.error e)
    (hok : e ≠ OPGPError.insufficientBuffer ∨ earlyBufferReject si apduCommand bufLen) :
    (wrap_command aesCmac apduCommand bufLen (some si)).2 = some si := by
  have key : (wrapWithSecurity aesCmac si apduCommand bufLen).2 = some si
      ∨ ∀ e2, (wrapWithSecurity aesCmac si apduCommand bufLen).1 = Except.error e2 →
        e2 = OPGPError.insufficientBuffer := by
    unfold wrapWithSecurity
    repeat' split
    all_goals try exact Or.inl (by with_reducible rfl)
    all_goals exact Or.inr (fun e2 he => wrapMacPhase_error_is_buffer _ _ _ _ _ _ _ _ he)
  by_cases hb : bufLen < apduCommand.length
  · simp only [wrap_command, if_pos hb]
  · unfold wrap_command at herr ⊢
    rw [if_neg hb] at herr ⊢
    simp only [] at herr ⊢
    rcases hok with hne | hearly
    · rcases key with hk | hk
      · exact hk
      · exact absurd (hk e herr) hne
    · rcases hearly with hlt | hex
      · exact absurd hlt hb
      · exact wrapWithSecurity_early_buffer_unchanged aesCmac si apduCommand bufLen hex

/-- C1 witness: a malformed APDU under a C-MAC session fails with
`UnrecognizedApdu` and the state is unchanged. -/
theorem wrap_command_chain_unchanged_witness :
    (wrap_command cmacZero apduMalformed 20 (some siCmac)).2 = some siCmac :=
  wrap_command_chain_unchanged_on_other_errors cmacZero apduMalformed 20 siCmac
    OPGPError.unrecognizedApdu rfl (Or.inl (by decide))

set_option maxRecDepth 100000 in
set_option maxHeartbeats 1000000 in
/-- C1 counterexample: under SCP02 `i05` with C_DEC_C_MAC and a 14-byte output
buffer, a one-data-byte Case-3 APDU fails with `InsufficientBuffer` in the
encryption phase (crypto.c:1420) — yet `lastC_MAC` has already been advanced
by the store at crypto.c:1366, refuting the claim that the chain is never
advanced on failure. -/
theorem wrap_command_chain_advanced_on_late_buffer_error :
    (wrap_command cmacZero apduCase3One 14 (some siCdec)).1
        = Except.error OPGPError.insufficientBuffer
    ∧ ((wrap_command cmacZero apduCase3One 14 (some siCdec)).2.elim []
        SecurityInfo.lastC_MAC) ≠ siCdec.lastC_MAC := by
  constructor
  · rfl
  · decide

theorem list_length_eight (l : List Nat) (h : l.length = 8) :
    ∃ b0 b1 b2 b3 b4 b5 b6 b7, l = [b0, b1, b2, b3, b4, b5, b6, b7] := by
  obtain _ | ⟨b0, _ | ⟨b1, _ | ⟨b2, _ | ⟨b3, _ |
      ⟨b4, _ | ⟨b5, _ | ⟨b6, _ | ⟨b7, _ | ⟨b8, t⟩⟩⟩⟩⟩⟩⟩⟩⟩ := l <;>
    simp at h
  exact ⟨b0, b1, b2, b3, b4, b5, b6, b7, rfl⟩

/-- C9: for the ICV-encrypting SCP02 i-variants, the MAC ICV that
`wrap_command` derives (its `computeICV` step, crypto.c:1272-1288) is the
single-DES encryption of the 8 `lastC_MAC` bytes under only the first 8 bytes
of the C-MAC session key, and the remaining key bytes have no influence on
it. -/
theorem wrap_icv_single_des_left_half (si : SecurityInfo)
    (hp : si.secureChannelProtocol = GP211_SCP02)
    (himpl : si.secureChannelProtocolImpl = GP211_SCP02_IMPL_i14
      ∨ si.secureChannelProtocolImpl = GP211_SCP02_IMPL_i15
      ∨ si.secureChannelProtocolImpl = GP211_SCP02_IMPL_i1A
      ∨ si.secureChannelProtocolImpl = GP211_SCP02_IMPL_i1B
      ∨ si.secureChannelProtocolImpl = GP211_SCP02_IMPL_i54
      ∨ si.secureChannelProtocolImpl = GP211_SCP02_IMPL_i55)
    (hlen : 8 ≤ si.lastC_MAC.length) :
    computeICV si = desEncrypt (si.C_MACSessionKey.take 8) (si.lastC_MAC.take 8)
    ∧ ∀ k : List Nat, k.take 8 = si.C_MACSessionKey.take 8 →
      computeICV { si with C_MACSessionKey := k } = computeICV si := by
  have hsingle : ∀ key : List Nat,
      calculate_enc_ecb_single_des key (si.lastC_MAC.take 8)
        = desEncrypt (key.take 8) (si.lastC_MAC.take 8) := by
    intro key
    have hlen8 : (si.lastC_MAC.take 8).length = 8 := by
      simp only [List.length_take]
      omega
    rw [calculate_enc_ecb_single_des, padIfNeeded, if_pos (by rw [hlen8])]
    rw [toBlocks_single _ hlen8]
    simp
  have hmain : computeICV si = desEncrypt (si.C_MACSessionKey.take 8) (si.lastC_MAC.take 8) := by
    rw [computeICV, if_pos hp, if_pos himpl, hsingle]
  refine ⟨hmain, fun k hk => ?_⟩
  have hmain2 : computeICV { si with C_MACSessionKey := k }
      = desEncrypt (k.take 8) (si.lastC_MAC.take 8) := by
    rw [computeICV]
    simp only [hp, himpl, if_true]
    rw [hsingle]
  rw [hmain2, hmain, hk]

/-- C9 witness: a concrete `i15` session with a key whose halves differ. -/
theorem wrap_icv_single_des_left_half_witness :
    computeICV siIcv = desEncrypt (siIcv.C_MACSessionKey.take 8) (siIcv.lastC_MAC.take 8)
    ∧ ∀ k : List Nat, k.take 8 = siIcv.C_MACSessionKey.take 8 →
      computeICV { siIcv with C_MACSessionKey := k } = computeICV siIcv :=
  wrap_icv_single_des_left_half siIcv (by decide) (by decide) (by decide)

/-- C5: `create_session_key_SCP03` returns the full 16-byte AES-128-CMAC,
under the static key, of the 32-byte block made of 11 zero bytes, the
derivation constant, the bytes `0x00 0x00 0x80 0x01`, and the host challenge
followed by the card challenge. -/
theorem create_session_key_SCP03_layout (aesCmac : List Nat → List Nat → List Nat)
    (key : List Nat) (dc : Nat) (cardChallenge hostChallenge : List Nat)
    (hdc : dc < 256) (hc : cardChallenge.length = 8) (hh : hostChallenge.length = 8) :
    create_session_key_SCP03 aesCmac key dc cardChallenge hostChallenge
      = aesCmac key (List.replicate 11 0 ++ [dc, 0x00, 0x00, 0x80, 0x01]
          ++ hostChallenge ++ cardChallenge) := by
  obtain ⟨h0, h1, h2, h3, h4, h5, h6, h7, rfl⟩ := list_length_eight hostChallenge hh
  obtain ⟨c0, c1, c2, c3, c4, c5, c6, c7, rfl⟩ := list_length_eight cardChallenge hc
  simp [create_session_key_SCP03, calculate_MAC_aes, splice, Nat.mod_eq_of_lt hdc,
    List.replicate]

/-- C5 witness: concrete challenges and a concrete CMAC stand-in. -/
theorem create_session_key_SCP03_layout_witness :
    create_session_key_SCP03 cmacZero testKey16 4
        [8, 9, 10, 11, 12, 13, 14, 15] [0, 1, 2, 3, 4, 5, 6, 7]
      = cmacZero testKey16 (List.replicate 11 0 ++ [4, 0x00, 0x00, 0x80, 0x01]
          ++ [0, 1, 2, 3, 4, 5, 6, 7] ++ [8, 9, 10, 11, 12, 13, 14, 15]) :=
  create_session_key_SCP03_layout cmacZero testKey16 4
    [8, 9, 10, 11, 12, 13, 14, 15] [0, 1, 2, 3, 4, 5, 6, 7]
    (by decide) (by decide) (by decide)

theorem card_cryptogram_SCP02_eval (k s c h : List Nat)
    (hs : s.length = 2) (hc : c.length = 6) (hh : h.length = 8) :
    calculate_card_cryptogram_SCP02 k s c h = tdesCbcMacSpec k icv (h ++ s ++ c) := by
  have h1 : h.take 8 = h := List.take_of_length_le (by omega)
  have h2 : s.take 2 = s := List.take_of_length_le (by omega)
  have h3 : c.take 6 = c := List.take_of_length_le (by omega)
  have h4 : icv.take 8 = icv := by decide
  rw [calculate_card_cryptogram_SCP02, calculate_MAC, tdesCbcMacSpec, padAlways,
    h1, h2, h3, h4]

/-- C2 (amended): the SCP02 card cryptogram is the plain two-key 3DES-CBC MAC
(`calculate_MAC`, all blocks through full 3DES, mandatory `0x80` padding) with
zero IV over `hostChallenge ‖ sequenceCounter ‖ cardChallenge` — not the
Retail MAC the spec describes. -/
theorem card_cryptogram_SCP02_is_3des_cbc_mac (k s c h : List Nat)
    (hs : s.length = 2) (hc : c.length = 6) (hh : h.length = 8) :
    calculate_card_cryptogram_SCP02 k s c h = tdesCbcMacSpec k icv (h ++ s ++ c) :=
  card_cryptogram_SCP02_eval k s c h hs hc hh

/-- C2 witness: the amended statement at concrete challenges. -/
theorem card_cryptogram_SCP02_is_3des_cbc_mac_witness :
    calculate_card_cryptogram_SCP02 testKey16 [0, 1] [8, 9, 10, 11, 12, 13]
        [0, 1, 2, 3, 4, 5, 6, 7]
      = tdesCbcMacSpec testKey16 icv
          ([0, 1, 2, 3, 4, 5, 6, 7] ++ [0, 1] ++ [8, 9, 10, 11, 12, 13]) :=
  card_cryptogram_SCP02_is_3des_cbc_mac testKey16 [0, 1] [8, 9, 10, 11, 12, 13]
    [0, 1, 2, 3, 4, 5, 6, 7] (by decide) (by decide) (by decide)

set_option maxRecDepth 100000 in
set_option maxHeartbeats 1000000 in
/-- C2 counterexample: at a concrete key whose DES halves differ,
`calculate_card_cryptogram_SCP02` does not return the Retail MAC
(ISO 9797-1 algorithm 3) of `hostChallenge ‖ sequenceCounter ‖ cardChallenge`
that the claim describes, because `calculate_MAC` (crypto.c:650) runs every
block through full 3DES rather than single DES under the left half key. -/
theorem card_cryptogram_SCP02_not_retail_mac :
    calculate_card_cryptogram_SCP02 testKey16 [0, 1] [8, 9, 10, 11, 12, 13]
        [0, 1, 2, 3, 4, 5, 6, 7]
      ≠ retailMAC_spec testKey16 icv
          ([0, 1, 2, 3, 4, 5, 6, 7] ++ [0, 1] ++ [8, 9, 10, 11, 12, 13]) := by
  have hblocks : toBlocks (([0, 1, 2, 3, 4, 5, 6, 7] ++ [0, 1] ++ [8, 9, 10, 11, 12, 13])
      ++ opgpPadding.take
        (8 - ([0, 1, 2, 3, 4, 5, 6, 7] ++ [0, 1] ++ [8, 9, 10, 11, 12, 13] : List Nat).length % 8))
      = [[0, 1, 2, 3, 4, 5, 6, 7], [0, 1, 8, 9, 10, 11, 12, 13],
         [0x80, 0, 0, 0, 0, 0, 0, 0]] := by decide
  have hL : calculate_card_cryptogram_SCP02 testKey16 [0, 1] [8, 9, 10, 11, 12, 13]
      [0, 1, 2, 3, 4, 5, 6, 7] = [63, 111, 60, 213, 46, 205, 223, 109] := by
    rw [card_cryptogram_SCP02_eval _ _ _ _ (by decide) (by decide) (by decide)]
    simp only [tdesCbcMacSpec]
    rw [hblocks]
    simp only [cbcEncryptBlocks]
    have c1 : tdesEncrypt testKey16 (xorBytes icv [0, 1, 2, 3, 4, 5, 6, 7])
        = [241, 215, 94, 79, 13, 55, 194, 44] := by decide
    rw [c1]
    have c2 : tdesEncrypt testKey16
        (xorBytes [241, 215, 94, 79, 13, 55, 194, 44] [0, 1, 8, 9, 10, 11, 12, 13])
        = [143, 9, 123, 34, 146, 16, 236, 184] := by decide
    rw [c2]
    have c3 : tdesEncrypt testKey16
        (xorBytes [143, 9, 123, 34, 146, 16, 236, 184] [0x80, 0, 0, 0, 0, 0, 0, 0])
        = [63, 111, 60, 213, 46, 205, 223, 109] := by decide
    rw [c3]
    rfl
  have hR : retailMAC_spec testKey16 icv
      ([0, 1, 2, 3, 4, 5, 6, 7] ++ [0, 1] ++ [8, 9, 10, 11, 12, 13])
      = [214, 0, 200, 188, 10, 69, 213, 147] := by
    simp only [retailMAC_spec]
    rw [hblocks]
    simp only [List.dropLast, cbcEncryptBlocks]
    have d1 : desEncrypt (testKey16.take 8) (xorBytes icv [0, 1, 2, 3, 4, 5, 6, 7])
        = [111, 193, 91, 214, 188, 10, 181, 66] := by decide
    rw [d1]
    have d2 : desEncrypt (testKey16.take 8)
        (xorBytes [111, 193, 91, 214, 188, 10, 181, 66] [0, 1, 8, 9, 10, 11, 12, 13])
        = [188, 61, 219, 99, 51, 106, 168, 174] := by decide
    rw [d2]
    have d3 : tdesEncrypt testKey16
        (xorBytes [188, 61, 219, 99, 51, 106, 168, 174] [0x80, 0, 0, 0, 0, 0, 0, 0])
        = [214, 0, 200, 188, 10, 69, 213, 147] := by decide
    exact d3
  rw [hL, hR]
  decide

/-- C3: the claim describes the intended delete-receipt validation-data layout
`[0x02, ctrHi, ctrLo, |uid|] ‖ uid ‖ [|AID|] ‖ AID`, but
`validate_delete_receipt` copies `cardUniqueData` and `AID` to offset 0 of the
buffer (crypto.c:999, 1002), overwriting the prefix: with `uid = [0xAA]` and
`AID = [0xBB]`, whatever the `malloc`ed buffer held initially, the data the
receipt MAC is computed over begins with `0xBB` instead of `0x02`. -/
theorem validate_delete_receipt_prefix_overwritten (uninit : List Nat) (ctr : Nat) :
    (build_delete_validation_data uninit ctr [0xAA] [0xBB]).headD 0 = 0xBB
    ∧ (deleteValidationData_spec ctr [0xAA] [0xBB]).headD 0 = 2
    ∧ build_delete_validation_data uninit ctr [0xAA] [0xBB]
        ≠ deleteValidationData_spec ctr [0xAA] [0xBB] := by
  have hb : (build_delete_validation_data uninit ctr [0xAA] [0xBB]).headD 0 = 0xBB := by
    simp [build_delete_validation_data, splice]
  refine ⟨hb, rfl, fun heq => ?_⟩
  rw [heq] at hb
  simp [deleteValidationData_spec] at hb

theorem length_GP211_calculate_R_MAC (ch cd : List Nat) (cdl : Nat) (rd : List Nat)
    (rdl : Nat) (sw : List Nat) (si : SecurityInfo) :
    (GP211_calculate_R_MAC ch cd cdl rd rdl sw si).length = 8 :=
  length_calculate_MAC_des_3des _ _ _

/-- C7: under an R-MAC-bearing SCP02 security level, for a well-formed command
and a response of at least 10 bytes, `GP211_check_R_MAC` compares the computed
R-MAC (`checkedRMac`, the Retail MAC chained on `lastR_MAC` exactly as the
source computes it) against the 8 response bytes preceding the status word: on
any difference it returns `ValidationRMAC` with the `SecurityInfo` — in
particular `lastR_MAC` — unchanged, and on a match it succeeds and stores the
computed MAC as the new `lastR_MAC`. -/
theorem check_R_MAC_mismatch_and_match (apdu resp : List Nat) (si : SecurityInfo)
    (hlev : si.securityLevel = GP211_SCP02_SECURITY_LEVEL_R_MAC
      ∨ si.securityLevel = GP211_SCP02_SECURITY_LEVEL_C_MAC_R_MAC
      ∨ si.securityLevel = GP211_SCP02_SECURITY_LEVEL_C_DEC_C_MAC_R_MAC)
    (hwf : apdu.length = 4 ∨ apdu.length = 5
      ∨ apdu.getD 4 0 + 5 = apdu.length ∨ apdu.getD 4 0 + 5 + 1 = apdu.length)
    (_hresp : 10 ≤ resp.length) (hR : si.lastR_MAC.length = 8) :
    (checkedRMac apdu resp si ≠ (resp.drop (resp.length - 10)).take 8 →
      GP211_check_R_MAC apdu resp (some si) = (Except.error .validationRMAC, some si))
    ∧ (checkedRMac apdu resp si = (resp.drop (resp.length - 10)).take 8 →
      GP211_check_R_MAC apdu resp (some si)
        = (Except.ok (), some { si with lastR_MAC := checkedRMac apdu resp si })) := by
  have hcond : ¬(si.securityLevel ≠ GP211_SCP02_SECURITY_LEVEL_C_DEC_C_MAC_R_MAC
      ∧ si.securityLevel ≠ GP211_SCP02_SECURITY_LEVEL_R_MAC
      ∧ si.securityLevel ≠ GP211_SCP02_SECURITY_LEVEL_C_MAC_R_MAC) := by
    intro hcon
    rcases hlev with h | h | h
    · exact hcon.2.1 h
    · exact hcon.2.2 h
    · exact hcon.1 h
  have hcls : (if apdu.length = 4 then Except.ok 0
      else if apdu.length = 5 then Except.ok 0
      else if apdu.getD 4 0 + 5 = apdu.length then Except.ok (apdu.getD 4 0)
      else if apdu.getD 4 0 + 5 + 1 = apdu.length then Except.ok (apdu.getD 4 0)
      else (Except.error .unrecognizedApdu : Except OPGPError Nat))
      = Except.ok (if apdu.length = 4 ∨ apdu.length = 5 then 0 else apdu.getD 4 0) := by
    by_cases h4 : apdu.length = 4
    · rw [if_pos h4, if_pos (Or.inl h4)]
    by_cases h5 : apdu.length = 5
    · rw [if_neg h4, if_pos h5, if_pos (Or.inr h5)]
    rw [if_neg h4, if_neg h5,
      if_neg (show ¬(apdu.length = 4 ∨ apdu.length = 5) from fun hor => hor.elim h4 h5)]
    rcases hwf with h | h | h | h
    · exact absurd h h4
    · exact absurd h h5
    · rw [if_pos h]
    · rw [if_neg (show ¬(apdu.getD 4 0 + 5 = apdu.length) from by omega), if_pos h]
  have hstore : checkedRMac apdu resp si
      = (checkedRMac apdu resp si).take 8 ++ si.lastR_MAC.drop 8 := by
    rw [List.take_of_length_le (by rw [checkedRMac, length_GP211_calculate_R_MAC]),
      List.drop_eq_nil_of_le (by omega), List.append_nil]
  constructor
  · intro hne
    simp only [GP211_check_R_MAC]
    rw [if_neg hcond, hcls]
    simp only []
    rw [if_pos (by simp only [checkedRMac] at hne; exact hne)]
  · intro heq
    simp only [GP211_check_R_MAC]
    rw [if_neg hcond, hcls]
    simp only []
    rw [if_neg (by simp only [checkedRMac] at heq; exact fun hne => hne heq)]
    rw [show (GP211_calculate_R_MAC apdu apdu
        (if apdu.length = 4 ∨ apdu.length = 5 then 0 else apdu.getD 4 0)
        resp (resp.length - 2) (resp.drop (resp.length - 2)) si).take 8
          ++ si.lastR_MAC.drop 8
        = checkedRMac apdu resp si from (by rw [checkedRMac] at hstore ⊢; exact hstore.symm)]

/-- C7 witness: a Case-1 command and a 10-byte response under a concrete
R-MAC session. -/
theorem check_R_MAC_mismatch_and_match_witness :
    (checkedRMac [0x80, 0xF2, 0, 0] [1, 2, 3, 4, 5, 6, 7, 8, 0x90, 0] siRmac
        ≠ (([1, 2, 3, 4, 5, 6, 7, 8, 0x90, 0] : List Nat).drop
          (([1, 2, 3, 4, 5, 6, 7, 8, 0x90, 0] : List Nat).length - 10)).take 8 →
      GP211_check_R_MAC [0x80, 0xF2, 0, 0] [1, 2, 3, 4, 5, 6, 7, 8, 0x90, 0] (some siRmac)
        = (Except.error .validationRMAC, some siRmac))
    ∧ (checkedRMac [0x80, 0xF2, 0, 0] [1, 2, 3, 4, 5, 6, 7, 8, 0x90, 0] siRmac
        = (([1, 2, 3, 4, 5, 6, 7, 8, 0x90, 0] : List Nat).drop
          (([1, 2, 3, 4, 5, 6, 7, 8, 0x90, 0] : List Nat).length - 10)).take 8 →
      GP211_check_R_MAC [0x80, 0xF2, 0, 0] [1, 2, 3, 4, 5, 6, 7, 8, 0x90, 0] (some siRmac)
        = (Except.ok (), some { siRmac with
            lastR_MAC := checkedRMac [0x80, 0xF2, 0, 0]
              [1, 2, 3, 4, 5, 6, 7, 8, 0x90, 0] siRmac })) :=
  check_R_MAC_mismatch_and_match [0x80, 0xF2, 0, 0] [1, 2, 3, 4, 5, 6, 7, 8, 0x90, 0]
    siRmac (by decide) (by decide) (by decide) (by decide)

theorem wrapFinish_scp02_cdec_case3_isOk (si2 : SecurityInfo) (le wl2 : Nat)
    (wrapped2 mac : List Nat)
    (hp : si2.secureChannelProtocol = GP211_SCP02)
    (hl : si2.securityLevel = GP211_SCP02_SECURITY_LEVEL_C_DEC_C_MAC)
    (hwl : wl2 ≤ 268) :
    ((wrapFinish si2 270 3 le wl2 wrapped2 mac).1).isOk = true := by
  simp only [wrapFinish]
  have h24 : ¬((3 : Nat) = 2 ∨ (3 : Nat) = 4) := by decide
  simp only [if_neg h24]
  rw [if_pos (Or.inr (Or.inl hl)), if_pos hp, if_pos hp]
  split
  next h =>
    exfalso
    rw [length_calculate_enc_cbc_SCP02] at h
    simp only [List.length_take, List.length_drop] at h
    omega
  next _ => rfl

theorem wrapMacPhase_scp02_cdec_case3_isOk (aesCmac : List Nat → List Nat → List Nat)
    (si : SecurityInfo) (apduCommand : List Nat) (le wl0 : Nat)
    (hp : si.secureChannelProtocol = GP211_SCP02)
    (hl : si.securityLevel = GP211_SCP02_SECURITY_LEVEL_C_DEC_C_MAC)
    (hwl0 : wl0 ≤ 252) :
    ((wrapMacPhase aesCmac si apduCommand 270 3 le wl0).1).isOk = true := by
  simp only [wrapMacPhase]
  rw [if_pos (show si.secureChannelProtocol ≠ GP211_SCP03 from by rw [hp]; decide)]
  have h12 : ¬((3 : Nat) = 1 ∨ (3 : Nat) = 2) := by decide
  simp only [if_neg h12]
  refine wrapFinish_scp02_cdec_case3_isOk _ _ _ _ _ ?_ ?_ ?_
  · exact hp
  · exact hl
  · split <;> split <;> omega

theorem wrap_scp02_cdec_case3_accepts (aesCmac : List Nat → List Nat → List Nat)
    (data : List Nat) (si : SecurityInfo)
    (hp : si.secureChannelProtocol = GP211_SCP02)
    (hl : si.securityLevel = GP211_SCP02_SECURITY_LEVEL_C_DEC_C_MAC)
    (hd1 : 1 ≤ data.length) (hd2 : data.length ≤ 247) :
    ((wrap_command aesCmac ([0x80, 0x82, 0x00, 0x00, data.length] ++ data) 270
        (some si)).1).isOk = true := by
  have happ : ([0x80, 0x82, 0x00, 0x00, data.length] ++ data : List Nat)
      = 0x80 :: 0x82 :: 0x00 :: 0x00 :: data.length :: data := by simp
  have hlen : ([0x80, 0x82, 0x00, 0x00, data.length] ++ data : List Nat).length
      = data.length + 5 := by simp
  have hcls : classifyApdu ([0x80, 0x82, 0x00, 0x00, data.length] ++ data)
      = Except.ok (3, 0, data.length + 5, data.length + 5) := by
    unfold classifyApdu
    rw [hlen]
    rw [if_neg (show ¬(data.length + 5 = 4) from by omega),
      if_neg (show ¬(data.length + 5 = 5) from by omega)]
    have hgd : ([0x80, 0x82, 0x00, 0x00, data.length] ++ data : List Nat).getD 4 0
        = data.length := by rw [happ]; rfl
    rw [hgd, if_pos rfl]
  unfold wrap_command
  rw [if_neg (show ¬(270 < ([0x80, 0x82, 0x00, 0x00, data.length] ++ data : List Nat).length)
    from by rw [hlen]; omega)]
  simp only []
  unfold wrapWithSecurity
  rw [if_neg (show ¬(si.securityLevel = GP211_SCP02_SECURITY_LEVEL_NO_SECURE_MESSAGING
      ∨ si.securityLevel = GP211_SCP01_SECURITY_LEVEL_NO_SECURE_MESSAGING
      ∨ si.securityLevel = GP211_SCP03_SECURITY_LEVEL_NO_SECURE_MESSAGING)
    from by rw [hl]; decide)]
  rw [if_neg (show ¬(si.secureChannelProtocol = GP211_SCP03
      ∧ si.securityLevel = GP211_SCP03_SECURITY_LEVEL_C_DEC_C_MAC)
    from fun hc => by rw [hp] at hc; exact absurd hc.1 (by decide))]
  rw [hcls]
  simp only []
  rw [show (if si.secureChannelProtocol ≠ GP211_SCP03 then 239 + 8 + 5 else 231 + 8 + 5)
      = 252 from by
    rw [if_pos (show si.secureChannelProtocol ≠ GP211_SCP03 from by rw [hp]; decide)]]
  rw [show (if si.secureChannelProtocol ≠ GP211_SCP03 then 239 + 8 + 5 + 1 else 231 + 8 + 5 + 1)
      = 253 from by
    rw [if_pos (show si.secureChannelProtocol ≠ GP211_SCP03 from by rw [hp]; decide)]]
  split
  next htl =>
    exfalso
    obtain ⟨-, h2⟩ := htl
    rcases h2 with ⟨-, hgt⟩ | ⟨hc, -⟩
    · omega
    · omega
  next =>
    split
    next htl2 =>
      exfalso
      obtain ⟨hlev2, -⟩ := htl2
      rw [hl] at hlev2
      rcases hlev2 with h | h | h | h <;> exact absurd h (by decide)
    next =>
      split
      next hbuf =>
        exfalso
        rcases hbuf.2.1 with h | h <;> omega
      next =>
        split
        next hbuf =>
          exfalso
          have := hbuf.2.2
          omega
        next =>
          split
          next hbuf =>
            exfalso
            rcases hbuf.2.1 with h | h <;> omega
          next =>
            split
            next hbuf =>
              exfalso
              have := hbuf.2.2
              omega
            next =>
              exact wrapMacPhase_scp02_cdec_case3_isOk aesCmac si _ 0 _ hp hl (by omega)

theorem wrap_scp02_cdec_case3_rejects (aesCmac : List Nat → List Nat → List Nat)
    (data : List Nat) (si : SecurityInfo)
    (hp : si.secureChannelProtocol = GP211_SCP02)
    (hl : si.securityLevel = GP211_SCP02_SECURITY_LEVEL_C_DEC_C_MAC)
    (hd1 : 248 ≤ data.length) (hd2 : data.length ≤ 255) :
    (wrap_command aesCmac ([0x80, 0x82, 0x00, 0x00, data.length] ++ data) 270
        (some si)).1 = Except.error .commandSecureMessagingTooLarge := by
  have happ : ([0x80, 0x82, 0x00, 0x00, data.length] ++ data : List Nat)
      = 0x80 :: 0x82 :: 0x00 :: 0x00 :: data.length :: data := by simp
  have hlen : ([0x80, 0x82, 0x00, 0x00, data.length] ++ data : List Nat).length
      = data.length + 5 := by simp
  have hcls : classifyApdu ([0x80, 0x82, 0x00, 0x00, data.length] ++ data)
      = Except.ok (3, 0, data.length + 5, data.length + 5) := by
    unfold classifyApdu
    rw [hlen]
    rw [if_neg (show ¬(data.length + 5 = 4) from by omega),
      if_neg (show ¬(data.length + 5 = 5) from by omega)]
    have hgd : ([0x80, 0x82, 0x00, 0x00, data.length] ++ data : List Nat).getD 4 0
        = data.length := by rw [happ]; rfl
    rw [hgd, if_pos rfl]
  unfold wrap_command
  rw [if_neg (show ¬(270 < ([0x80, 0x82, 0x00, 0x00, data.length] ++ data : List Nat).length)
    from by rw [hlen]; omega)]
  simp only []
  unfold wrapWithSecurity
  rw [if_neg (show ¬(si.securityLevel = GP211_SCP02_SECURITY_LEVEL_NO_SECURE_MESSAGING
      ∨ si.securityLevel = GP211_SCP01_SECURITY_LEVEL_NO_SECURE_MESSAGING
      ∨ si.securityLevel = GP211_SCP03_SECURITY_LEVEL_NO_SECURE_MESSAGING)
    from by rw [hl]; decide)]
  rw [if_neg (show ¬(si.secureChannelProtocol = GP211_SCP03
      ∧ si.securityLevel = GP211_SCP03_SECURITY_LEVEL_C_DEC_C_MAC)
    from fun hc => by rw [hp] at hc; exact absurd hc.1 (by decide))]
  rw [hcls]
  simp only []
  rw [show (if si.secureChannelProtocol ≠ GP211_SCP03 then 239 + 8 + 5 else 231 + 8 + 5)
      = 252 from by
    rw [if_pos (show si.secureChannelProtocol ≠ GP211_SCP03 from by rw [hp]; decide)]]
  rw [show (if si.secureChannelProtocol ≠ GP211_SCP03 then 239 + 8 + 5 + 1 else 231 + 8 + 5 + 1)
      = 253 from by
    rw [if_pos (show si.secureChannelProtocol ≠ GP211_SCP03 from by rw [hp]; decide)]]
  split
  next => rfl
  next hfalse =>
    exfalso
    refine hfalse ⟨Or.inr (Or.inl hl), Or.inl ⟨?_, by omega⟩⟩
    trivial

/-- C4 (amended): under SCP02 with C_DEC_C_MAC, the Case-3 length check of
`wrap_command` (crypto.c:1184-1194) compares the 5+|data| command length
against 239+8+5 = 252, so it accepts up to 247 data bytes: Case-3 commands
with 240 and with 241 data bytes are both accepted (with an ample output
buffer), and the first rejected size is 248 data bytes, which fails with
`CommandSecureMessagingTooLarge`. -/
theorem wrap_scp02_cdec_case3_budget_threshold (aesCmac : List Nat → List Nat → List Nat)
    (data240 data241 data248 : List Nat) (si : SecurityInfo)
    (hp : si.secureChannelProtocol = GP211_SCP02)
    (hl : si.securityLevel = GP211_SCP02_SECURITY_LEVEL_C_DEC_C_MAC)
    (h240 : data240.length = 240) (h241 : data241.length = 241)
    (h248 : data248.length = 248) :
    ((wrap_command aesCmac ([0x80, 0x82, 0x00, 0x00, data240.length] ++ data240) 270
        (some si)).1).isOk = true
    ∧ ((wrap_command aesCmac ([0x80, 0x82, 0x00, 0x00, data241.length] ++ data241) 270
        (some si)).1).isOk = true
    ∧ (wrap_command aesCmac ([0x80, 0x82, 0x00, 0x00, data248.length] ++ data248) 270
        (some si)).1 = Except.error .commandSecureMessagingTooLarge :=
  ⟨wrap_scp02_cdec_case3_accepts aesCmac data240 si hp hl (by omega) (by omega),
   wrap_scp02_cdec_case3_accepts aesCmac data241 si hp hl (by omega) (by omega),
   wrap_scp02_cdec_case3_rejects aesCmac data248 si hp hl (by omega) (by omega)⟩

/-- C4 witness: concrete data of sizes 240, 241 and 248 under a concrete
session. -/
theorem wrap_scp02_cdec_case3_budget_threshold_witness :
    ((wrap_command cmacZero ([0x80, 0x82, 0x00, 0x00, (List.replicate 240 0xAB).length]
        ++ List.replicate 240 0xAB) 270 (some siCdec)).1).isOk = true
    ∧ ((wrap_command cmacZero ([0x80, 0x82, 0x00, 0x00, (List.replicate 241 0xAB).length]
        ++ List.replicate 241 0xAB) 270 (some siCdec)).1).isOk = true
    ∧ (wrap_command cmacZero ([0x80, 0x82, 0x00, 0x00, (List.replicate 248 0xAB).length]
        ++ List.replicate 248 0xAB) 270 (some siCdec)).1
        = Except.error .commandSecureMessagingTooLarge :=
  wrap_scp02_cdec_case3_budget_threshold cmacZero (List.replicate 240 0xAB)
    (List.replicate 241 0xAB) (List.replicate 248 0xAB) siCdec
    rfl rfl (by rw [List.length_replicate]) (by rw [List.length_replicate])
    (by rw [List.length_replicate])

/-- C4 counterexample: a Case-3 APDU with 241 data bytes under SCP02
C_DEC_C_MAC is not rejected with `CommandSecureMessagingTooLarge` — the wrap
succeeds, refuting the claimed 240/241 threshold. -/
theorem wrap_scp02_cdec_case3_accepts_241 :
    (wrap_command cmacZero ([0x80, 0x82, 0x00, 0x00, 241] ++ List.replicate 241 0xAB) 270
        (some siCdec)).1 ≠ Except.error .commandSecureMessagingTooLarge := by
  have h := wrap_scp02_cdec_case3_accepts cmacZero (List.replicate 241 0xAB) siCdec
    rfl rfl (by rw [List.length_replicate]; omega) (by rw [List.length_replicate]; omega)
  have hlen : (List.replicate 241 (0xAB : Nat)).length = 241 := by
    rw [List.length_replicate]
  rw [hlen] at h
  intro heq
  rw [heq] at h
  exact Bool.noConfusion h

end GPCrypto
